import Mathlib

/-!
Shallow embedding of `src/scripts/misc.py` (`compute_3d_area`).

NumPy 1-d float arrays are modelled as `List ℝ` (float arithmetic is modelled
as exact real arithmetic), 2-d arrays as `List (List ℝ)` (row major), 3-d
arrays as `List (List (List ℝ))` indexed `[lat][lon][depth]`.  The
`xarray.DataArray` objects are modelled as structures carrying the numeric
data together with their dimension names, coordinates and string attributes.
-/

/-- `R = 6371000`, Earth's radius in meters (line 17 of `misc.py`). -/
noncomputable def R : ℝ := 6371000

/-- `deg_to_rad = np.pi / 180` (line 18). -/
noncomputable def deg_to_rad : ℝ := Real.pi / 180

/-- `delta_lambda = 0.25 * deg_to_rad` (line 28): longitude width in radians. -/
noncomputable def delta_lambda : ℝ := 0.25 * deg_to_rad

/-- `lat_edges = np.append(lat - 0.25, lat[-1] + 0.25)` (line 21): subtract
0.25 from every latitude midpoint and append the single value
`lat[-1] + 0.25`.  (`lat[-1]` is the last element; on the empty list the
model returns the junk value `0 - 0.25`, where Python would raise
`IndexError` — theorems about values assume `lat ≠ []`.) -/
noncomputable def lat_edges (lat : List ℝ) : List ℝ :=
  lat.map (fun x => x - 0.25) ++ [lat.getLastD 0 + 0.25]

/-- `lat_north = lat_edges[1:]` (line 22). -/
noncomputable def lat_north (lat : List ℝ) : List ℝ :=
  (lat_edges lat).tail

/-- `lat_south = lat_edges[:-1]` (line 23). -/
noncomputable def lat_south (lat : List ℝ) : List ℝ :=
  (lat_edges lat).dropLast

/-- `area_2d = R**2 * delta_lambda * (np.sin(lat_north_rad) - np.sin(lat_south_rad))`
(lines 26-31), elementwise over the two edge arrays; entry `i` is the area of
latitude row `i`. -/
noncomputable def area_row (lat : List ℝ) : List ℝ :=
  List.zipWith
    (fun n s => R ^ 2 * delta_lambda *
      (Real.sin (n * deg_to_rad) - Real.sin (s * deg_to_rad)))
    (lat_north lat) (lat_south lat)

/-- Model of the intermediate 2-d `xarray.DataArray` (lines 35-41). -/
structure DataArray2 where
  data : List (List ℝ)
  lat_coord : List ℝ
  lon_coord : List ℝ
  dims : List String
  name : String
  attrs : List (String × String)

/-- Model of the returned 3-d `xarray.DataArray`. -/
structure DataArray3 where
  data : List (List (List ℝ))
  lat_coord : List ℝ
  lon_coord : List ℝ
  depth_coord : List ℝ
  dims : List String
  name : String
  attrs : List (String × String)
  depth_attrs : List (String × String)

/-- `area_2d_da` (lines 32-41): `np.tile(area_2d[:, np.newaxis], (1, len(lon)))`
replicates each row value across `len(lon)` columns, and the result is wrapped
in a `DataArray` with dims `["lat", "lon"]`, name `"cell_area"` and the
units/description attributes of line 40. -/
noncomputable def area_2d_da (lat lon : List ℝ) : DataArray2 :=
  { data := (area_row lat).map (fun a => List.replicate lon.length a)
    lat_coord := lat
    lon_coord := lon
    dims := ["lat", "lon"]
    name := "cell_area"
    attrs := [("units", "m^2"), ("description", "Area of each 1x1 degree grid cell")] }

/-- `compute_3d_area(lat, lon, depth)` (lines 4-53), with `depth` modelled as
the list of values carried by the `xarray`-like object passed in Python (so
`depth.data` on line 48 yields the same list).
`expand_dims(depth=depth).transpose("lat", "lon", "depth")` (line 44)
replicates every cell of the 2-d field across `len(depth)` depth levels, with
the depth axis last; `assign_coords` (lines 47-49) attaches the depth
coordinate with its attributes, and lines 50-51 set the final name and
overwrite the `description`/`units` attributes. -/
noncomputable def compute_3d_area (lat lon depth : List ℝ) : DataArray3 :=
  { data := (area_2d_da lat lon).data.map
      (fun row => row.map (fun v => List.replicate depth.length v))
    lat_coord := lat
    lon_coord := lon
    depth_coord := depth
    dims := ["lat", "lon", "depth"]
    name := "3D_area"
    attrs := [("units", "m^2"), ("description", "3D area of grid cells over depth")]
    depth_attrs := [("units", "m"), ("description", "Depth levels")] }

/-- Entry `a.data[i][j][d]`, with the junk value `0` out of range (the claims
quantify over in-range indices; out-of-range access would raise in NumPy). -/
noncomputable def DataArray3.item (a : DataArray3) (i j d : ℕ) : ℝ :=
  ((a.data.getD i []).getD j []).getD d 0

/-- A Python sequence object as passed for the `depth` parameter: a plain
Python `list`, a bare NumPy `ndarray`, or an `xarray.DataArray`, each carrying
the same numeric values in the model. -/
inductive PySeq where
  | pyList (xs : List ℝ) : PySeq
  | npArray (xs : List ℝ) : PySeq
  | xrDataArray (xs : List ℝ) : PySeq

/-- The numeric values carried by a Python sequence object. -/
def PySeq.toList : PySeq → List ℝ
  | pyList xs => xs
  | npArray xs => xs
  | xrDataArray xs => xs

/-- Python attribute access `obj.data`: a plain `list` has no `data`
attribute, so the access raises `AttributeError`; a NumPy `ndarray` exposes
`.data` (a memoryview over its values, accepted by `np.asarray` and hence by
xarray's coordinate constructor); an `xarray.DataArray` exposes `.data` (its
value array). -/
def PySeq.dataAttr : PySeq → Except String (List ℝ)
  | pyList _ => Except.error ("AttributeError")
  | npArray xs => Except.ok xs
  | xrDataArray xs => Except.ok xs

/-- `compute_3d_area` as actually invoked from Python with a dynamically typed
`depth` argument: `lat[-1]` (line 21) raises `IndexError` on an empty array,
and `depth.data` (line 48) raises `AttributeError` when the object has no
`data` attribute; otherwise the call returns the area field whose depth
coordinate is built from `depth.data`. -/
noncomputable def compute_3d_area_py (lat lon : List ℝ) (depth : PySeq) :
    Except String DataArray3 :=
  if lat.isEmpty then Except.error ("IndexError")
  else
    match depth.dataAttr with
    | Except.error e => Except.error e
    | Except.ok d =>
        Except.ok { compute_3d_area lat lon depth.toList with depth_coord := d }

/-- The latitude edge sequence exactly as the claims describe it: "the
sequence `(lat - 0.25)` with `lat[last] + 0.25` appended", read at index `k`
(meaningful for `k ≤ len(lat)`). -/
noncomputable def claim1_edge (lat : List ℝ) (k : ℕ) : ℝ :=
  if k < lat.length then lat.getD k 0 - 0.25 else lat.getLastD 0 + 0.25

lemma lat_edges_length (lat : List ℝ) : (lat_edges lat).length = lat.length + 1 := by
  simp [lat_edges]

lemma area_row_length (lat : List ℝ) : (area_row lat).length = lat.length := by
  simp [area_row, lat_north, lat_south, lat_edges_length]

lemma lat_edges_getD_lt (lat : List ℝ) {k : ℕ} (hk : k < lat.length) :
    (lat_edges lat).getD k 0 = lat.getD k 0 - 0.25 := by
  have hk' : k < (lat.map (fun x => x - 0.25)).length := by simpa using hk
  rw [lat_edges, List.getD_eq_getElem?_getD, List.getElem?_append, if_pos hk',
    List.getElem?_map, List.getElem?_eq_getElem hk]
  simp [List.getElem?_eq_getElem hk]

lemma lat_edges_getD_last (lat : List ℝ) :
    (lat_edges lat).getD lat.length 0 = lat.getLastD 0 + 0.25 := by
  have h : (lat.map (fun x => x - 0.25)).length ≤ lat.length := by simp
  rw [lat_edges, List.getD_eq_getElem?_getD, List.getElem?_append_right h]
  simp

lemma area_row_getD (lat : List ℝ) {k : ℕ} (hk : k < lat.length) :
    (area_row lat).getD k 0 = R ^ 2 * delta_lambda *
      (Real.sin ((lat_edges lat).getD (k + 1) 0 * deg_to_rad) -
       Real.sin ((lat_edges lat).getD k 0 * deg_to_rad)) := by
  have h1 : k + 1 < (lat_edges lat).length := by rw [lat_edges_length]; omega
  have h2 : k < (lat_edges lat).length := by rw [lat_edges_length]; omega
  have hdl : k < (lat_edges lat).length - 1 := by rw [lat_edges_length]; omega
  rw [List.getD_eq_getElem _ _ h1, List.getD_eq_getElem _ _ h2]
  rw [area_row, lat_north, lat_south, List.getD_eq_getElem?_getD,
    List.getElem?_zipWith, List.getElem?_tail, List.getElem?_dropLast,
    if_pos hdl, List.getElem?_eq_getElem h1, List.getElem?_eq_getElem h2]
  simp

lemma compute_3d_area_row (lat lon depth : List ℝ) {i : ℕ} (hi : i < lat.length) :
    (compute_3d_area lat lon depth).data.getD i [] =
      List.replicate lon.length
        (List.replicate depth.length ((area_row lat).getD i 0)) := by
  have hi' : i < (area_row lat).length := by rw [area_row_length]; exact hi
  rw [List.getD_eq_getElem _ _ hi']
  simp only [compute_3d_area, area_2d_da]
  rw [List.getD_eq_getElem?_getD, List.getElem?_map, List.getElem?_map,
    List.getElem?_eq_getElem hi']
  simp [List.map_replicate]

lemma getD_replicate_of_lt {α : Type _} {x d : α} {n m : ℕ} (h : m < n) :
    (List.replicate n x).getD m d = x := by
  rw [List.getD_eq_getElem?_getD, List.getElem?_replicate, if_pos h, Option.getD_some]

lemma getD_replicate_of_ge {α : Type _} {x d : α} {n m : ℕ} (h : n ≤ m) :
    (List.replicate n x).getD m d = d := by
  rw [List.getD_eq_getElem?_getD, List.getElem?_replicate, if_neg (by omega),
    Option.getD_none]

lemma compute_3d_area_item_eq (lat lon depth : List ℝ) {i j d : ℕ}
    (hi : i < lat.length) (hj : j < lon.length) (hd : d < depth.length) :
    (compute_3d_area lat lon depth).item i j d = (area_row lat).getD i 0 := by
  rw [DataArray3.item, compute_3d_area_row lat lon depth hi,
    getD_replicate_of_lt hj, getD_replicate_of_lt hd]

lemma compute_3d_area_data_length (lat lon depth : List ℝ) :
    (compute_3d_area lat lon depth).data.length = lat.length := by
  simp [compute_3d_area, area_2d_da, area_row_length]

lemma compute_3d_area_row_out (lat lon depth : List ℝ) {i : ℕ} (hi : lat.length ≤ i) :
    (compute_3d_area lat lon depth).data.getD i [] = [] := by
  have hlen : (compute_3d_area lat lon depth).data.length ≤ i := by
    rw [compute_3d_area_data_length]; exact hi
  exact List.getD_eq_default _ _ hlen

lemma sin_deg_mono {a b : ℝ} (ha : -90 ≤ a) (hab : a ≤ b) (hb : b ≤ 90) :
    Real.sin (a * deg_to_rad) ≤ Real.sin (b * deg_to_rad) := by
  have hr : (0:ℝ) < Real.pi / 180 := by positivity
  have h1 : a * deg_to_rad ∈ Set.Icc (-(Real.pi / 2)) (Real.pi / 2) := by
    rw [Set.mem_Icc]
    unfold deg_to_rad
    constructor
    · nlinarith [mul_nonneg (by linarith : (0:ℝ) ≤ a + 90) hr.le]
    · nlinarith [mul_nonneg (by linarith : (0:ℝ) ≤ 90 - a) hr.le]
  have h2 : b * deg_to_rad ∈ Set.Icc (-(Real.pi / 2)) (Real.pi / 2) := by
    rw [Set.mem_Icc]
    unfold deg_to_rad
    constructor
    · nlinarith [mul_nonneg (by linarith : (0:ℝ) ≤ b + 90) hr.le]
    · nlinarith [mul_nonneg (by linarith : (0:ℝ) ≤ 90 - b) hr.le]
  have h3 : a * deg_to_rad ≤ b * deg_to_rad := by
    unfold deg_to_rad
    exact mul_le_mul_of_nonneg_right hab hr.le
  exact Real.strictMonoOn_sin.monotoneOn h1 h2 h3

lemma sin_deg_reflect_hi (x : ℝ) :
    Real.sin ((180 - x) * deg_to_rad) = Real.sin (x * deg_to_rad) := by
  have h : (180 - x) * deg_to_rad = Real.pi - x * deg_to_rad := by
    unfold deg_to_rad; ring
  rw [h, Real.sin_pi_sub]

lemma sin_deg_reflect_lo (x : ℝ) :
    Real.sin ((-180 - x) * deg_to_rad) = Real.sin (x * deg_to_rad) := by
  have h : (-180 - x) * deg_to_rad = -(Real.pi - -(x * deg_to_rad)) := by
    unfold deg_to_rad; ring
  rw [h, Real.sin_neg, Real.sin_pi_sub, Real.sin_neg, neg_neg]

lemma sin_deg_le {s n : ℝ} (hsn : s ≤ n)
    (hlo : -180 ≤ s + n) (hhi : s + n ≤ 180) (hsb : -180 ≤ s) (hnb : n ≤ 180) :
    Real.sin (s * deg_to_rad) ≤ Real.sin (n * deg_to_rad) := by
  rcases le_or_lt (-90) s with hs | hs
  · rcases le_or_lt n 90 with hn | hn
    · exact sin_deg_mono hs hsn hn
    · rw [show n = 180 - (180 - n) by ring, sin_deg_reflect_hi]
      exact sin_deg_mono hs (by linarith) (by linarith)
  · rcases le_or_lt n 90 with hn | hn
    · rw [show s = -180 - (-180 - s) by ring, sin_deg_reflect_lo]
      exact sin_deg_mono (by linarith) (by linarith) hn
    · rw [show s = -180 - (-180 - s) by ring, sin_deg_reflect_lo,
        show n = 180 - (180 - n) by ring, sin_deg_reflect_hi]
      exact sin_deg_mono (by linarith) (by linarith) (by linarith)

lemma getLastD_eq_getD (l : List ℝ) :
    l.getLastD 0 = l.getD (l.length - 1) 0 := by
  rw [List.getLastD_eq_getLast?, List.getLast?_eq_getElem?, List.getD_eq_getElem?_getD]

lemma chain'_getD {lat : List ℝ} (hu : List.Chain' (fun a b => b = a + 0.5) lat)
    {i : ℕ} (hi : i + 1 < lat.length) :
    lat.getD (i + 1) 0 = lat.getD i 0 + 0.5 := by
  have h := List.chain'_iff_get.mp hu i (by omega)
  rw [List.get_eq_getElem, List.get_eq_getElem] at h
  rw [List.getD_eq_getElem _ _ hi, List.getD_eq_getElem _ _ (by omega : i < lat.length)]
  exact h

lemma lat_edges_getD_succ_uniform {lat : List ℝ}
    (hu : List.Chain' (fun a b => b = a + 0.5) lat) {k : ℕ} (hk : k < lat.length) :
    (lat_edges lat).getD (k + 1) 0 = lat.getD k 0 + 0.25 := by
  rcases lt_or_eq_of_le (Nat.succ_le_of_lt hk) with h | h
  · rw [lat_edges_getD_lt lat h, chain'_getD hu h]
    ring
  · have h' : k + 1 = lat.length := h
    rw [h', lat_edges_getD_last, getLastD_eq_getD]
    have he : lat.length - 1 = k := by omega
    rw [he]

lemma getD_mem {l : List ℝ} {i : ℕ} (h : i < l.length) : l.getD i 0 ∈ l := by
  rw [List.getD_eq_getElem _ _ h]
  exact List.getElem_mem h

lemma list_sum_getD (l : List ℝ) :
    l.sum = ∑ i ∈ Finset.range l.length, l.getD i 0 := by
  induction l with
  | nil => simp
  | cons a t ih =>
      rw [List.sum_cons, List.length_cons, Finset.sum_range_succ']
      simp only [List.getD_cons_succ, List.getD_cons_zero]
      rw [← ih]
      ring

lemma compute_3d_area_data_eq (lat lon depth : List ℝ) :
    (compute_3d_area lat lon depth).data =
      (area_row lat).map
        (fun a => List.replicate lon.length (List.replicate depth.length a)) := by
  simp only [compute_3d_area, area_2d_da, List.map_map]
  congr 1
  funext a
  simp [List.map_replicate]

/-- Claim C1: for every non-empty ascending latitude sequence `lat`, longitude
sequence `lon` and depth sequence `depth`, the numeric value of the output at
latitude index `i` (for every in-range longitude and depth index) equals
`R^2 * (0.25*pi/180) * (sin(edges[i+1]*pi/180) - sin(edges[i]*pi/180))`, where
`R = 6371000` and `edges` is the sequence `(lat - 0.25)` with
`lat[last] + 0.25` appended. -/
theorem claim_c1_area_formula (lat lon depth : List ℝ)
    (hne : lat ≠ []) (hasc : List.Sorted (· ≤ ·) lat)
    (i j d : ℕ) (hi : i < lat.length) (hj : j < lon.length) (hd : d < depth.length) :
    (compute_3d_area lat lon depth).item i j d =
      (6371000 : ℝ) ^ 2 * (0.25 * Real.pi / 180) *
        (Real.sin (claim1_edge lat (i + 1) * (Real.pi / 180)) -
         Real.sin (claim1_edge lat i * (Real.pi / 180))) := by
  rw [compute_3d_area_item_eq lat lon depth hi hj hd, area_row_getD lat hi]
  have e1 : (lat_edges lat).getD (i + 1) 0 = claim1_edge lat (i + 1) := by
    rcases lt_or_eq_of_le (Nat.succ_le_of_lt hi) with h | h
    · rw [lat_edges_getD_lt lat h, claim1_edge, if_pos h]
    · have h' : i + 1 = lat.length := h
      rw [h', lat_edges_getD_last, claim1_edge, if_neg (lt_irrefl _)]
  have e2 : (lat_edges lat).getD i 0 = claim1_edge lat i := by
    rw [lat_edges_getD_lt lat hi, claim1_edge, if_pos hi]
  rw [e1, e2]
  unfold R delta_lambda deg_to_rad
  ring

/-- Witness for C1 at `lat = lon = depth = [0.0]`, `i = j = d = 0`. -/
theorem claim_c1_witness :
    (compute_3d_area [0] [0] [0]).item 0 0 0 =
      (6371000 : ℝ) ^ 2 * (0.25 * Real.pi / 180) *
        (Real.sin (claim1_edge [0] 1 * (Real.pi / 180)) -
         Real.sin (claim1_edge [0] 0 * (Real.pi / 180))) :=
  claim_c1_area_formula [0] [0] [0] (by simp) (List.sorted_singleton 0) 0 0 0
    (by simp) (by simp) (by simp)

/-- Claim C7: for `lat = [0.0]`, `lon = [0.0]`, `depth = [0.0]` the function
returns a `(1,1,1)` array whose single value is
`R^2 * (0.25*pi/180) * (sin(0.25*pi/180) - sin(-0.25*pi/180))` with
`R = 6371000`, a positive scalar. -/
theorem claim_c7_single_cell :
    (compute_3d_area [0] [0] [0]).data =
      [[[(6371000 : ℝ) ^ 2 * (0.25 * Real.pi / 180) *
          (Real.sin (0.25 * Real.pi / 180) - Real.sin (-0.25 * Real.pi / 180))]]] ∧
    0 < (6371000 : ℝ) ^ 2 * (0.25 * Real.pi / 180) *
          (Real.sin (0.25 * Real.pi / 180) - Real.sin (-0.25 * Real.pi / 180)) := by
  constructor
  · simp [compute_3d_area, area_2d_da, area_row, lat_north, lat_south, lat_edges,
      R, delta_lambda, deg_to_rad]
    norm_num
    ring_nf
    rw [show Real.sin (Real.pi * (-1 / 720)) = -Real.sin (Real.pi * (1 / 720)) from by
      rw [show (Real.pi * (-1 / 720) : ℝ) = -(Real.pi * (1 / 720)) by ring, Real.sin_neg]]
    ring
  · have hx : 0 < Real.sin (0.25 * Real.pi / 180) := by
      apply Real.sin_pos_of_pos_of_lt_pi
      · positivity
      · nlinarith [Real.pi_pos]
    have hneg : Real.sin (-0.25 * Real.pi / 180) = -Real.sin (0.25 * Real.pi / 180) := by
      rw [show (-0.25 * Real.pi / 180 : ℝ) = -(0.25 * Real.pi / 180) by ring, Real.sin_neg]
    rw [hneg]
    have h1 : (0:ℝ) < (6371000 : ℝ) ^ 2 := by norm_num
    have h2 : (0:ℝ) < 0.25 * Real.pi / 180 := by positivity
    nlinarith [mul_pos (mul_pos h1 h2) hx]

/-- Claim C2: for every non-empty input sequences `lat`, `lon`, `depth`, the
array returned by `compute_3d_area` has shape
`(len(lat), len(lon), len(depth))` with its axes ordered
(latitude, longitude, depth). -/
theorem claim_c2_shape (lat lon depth : List ℝ)
    (h1 : lat ≠ []) (h2 : lon ≠ []) (h3 : depth ≠ []) :
    (compute_3d_area lat lon depth).data.length = lat.length ∧
    (∀ row ∈ (compute_3d_area lat lon depth).data,
      row.length = lon.length ∧ ∀ cell ∈ row, cell.length = depth.length) ∧
    (compute_3d_area lat lon depth).dims = ["lat", "lon", "depth"] := by
  refine ⟨compute_3d_area_data_length lat lon depth, ?_, rfl⟩
  intro row hrow
  rw [compute_3d_area_data_eq, List.mem_map] at hrow
  obtain ⟨a, ha, hrow⟩ := hrow
  subst hrow
  refine ⟨by simp, ?_⟩
  intro cell hcell
  have := List.eq_of_mem_replicate hcell
  subst this
  simp

/-- Witness for C2 at `lat = lon = depth = [0.0]`. -/
theorem claim_c2_witness :
    (compute_3d_area [0] [0] [0]).data.length = 1 ∧
    (∀ row ∈ (compute_3d_area [0] [0] [0]).data,
      row.length = 1 ∧ ∀ cell ∈ row, cell.length = 1) ∧
    (compute_3d_area [0] [0] [0]).dims = ["lat", "lon", "depth"] :=
  claim_c2_shape [0] [0] [0] (by simp) (by simp) (by simp)

/-- Claim C3: for valid latitude inputs — per the specification's input
contract an ascending, uniformly 0.5°-spaced sequence — with every value in
the range `[-90, 90]`, every numeric value of the returned array is
nonnegative (and, values being exact reals in this model, finite). -/
theorem claim_c3_nonneg (lat lon depth : List ℝ) (hne : lat ≠ [])
    (hu : List.Chain' (fun a b => b = a + 0.5) lat)
    (hrange : ∀ x ∈ lat, -90 ≤ x ∧ x ≤ 90) (i j d : ℕ) :
    0 ≤ (compute_3d_area lat lon depth).item i j d := by
  by_cases hi : i < lat.length
  · by_cases hj : j < lon.length
    · by_cases hd : d < depth.length
      · rw [compute_3d_area_item_eq lat lon depth hi hj hd, area_row_getD lat hi,
          lat_edges_getD_succ_uniform hu hi, lat_edges_getD_lt lat hi]
        obtain ⟨h1, h2⟩ := hrange (lat.getD i 0) (getD_mem hi)
        have hsin : Real.sin ((lat.getD i 0 - 0.25) * deg_to_rad) ≤
            Real.sin ((lat.getD i 0 + 0.25) * deg_to_rad) :=
          sin_deg_le (by linarith) (by linarith) (by linarith) (by linarith) (by linarith)
        have hR : (0:ℝ) ≤ R ^ 2 := sq_nonneg R
        have hdl : (0:ℝ) ≤ delta_lambda := by
          unfold delta_lambda deg_to_rad; positivity
        exact mul_nonneg (mul_nonneg hR hdl) (sub_nonneg.mpr hsin)
      · simp only [DataArray3.item]
        rw [compute_3d_area_row lat lon depth hi, getD_replicate_of_lt hj,
          getD_replicate_of_ge (by omega)]
    · simp only [DataArray3.item]
      rw [compute_3d_area_row lat lon depth hi, getD_replicate_of_ge (by omega)]
      simp
  · simp only [DataArray3.item]
    rw [compute_3d_area_row_out lat lon depth (by omega)]
    simp

/-- Witness for C3 at `lat = lon = depth = [0.0]`, all indices `0`. -/
theorem claim_c3_witness : 0 ≤ (compute_3d_area [0] [0] [0]).item 0 0 0 :=
  claim_c3_nonneg [0] [0] [0] (by simp) (List.chain'_singleton 0)
    (by intro x hx; rw [List.mem_singleton] at hx; subst hx; norm_num) 0 0 0

/-- Claim C4: depth-invariance — for every input and every pair of in-range
depth indices `d1`, `d2`, the output at `(i, j, d1)` equals the output at
`(i, j, d2)`; moreover the numeric data never depends on the depth values,
only on how many there are. -/
theorem claim_c4_depth_invariance (lat lon depth depth2 : List ℝ) (i j d1 d2 : ℕ)
    (hd1 : d1 < depth.length) (hd2 : d2 < depth.length)
    (hlen : depth2.length = depth.length) :
    (compute_3d_area lat lon depth).item i j d1 =
      (compute_3d_area lat lon depth).item i j d2 ∧
    (compute_3d_area lat lon depth2).data = (compute_3d_area lat lon depth).data := by
  constructor
  · by_cases hi : i < lat.length
    · by_cases hj : j < lon.length
      · rw [compute_3d_area_item_eq lat lon depth hi hj hd1,
          compute_3d_area_item_eq lat lon depth hi hj hd2]
      · simp only [DataArray3.item]
        rw [compute_3d_area_row lat lon depth hi, getD_replicate_of_ge (by omega)]
        simp
    · simp only [DataArray3.item]
      rw [compute_3d_area_row_out lat lon depth (by omega)]
      simp
  · rw [compute_3d_area_data_eq, compute_3d_area_data_eq, hlen]

/-- Witness for C4 at `lat = lon = [0.0]`, `depth = [0, 10]`, depth indices
`0` and `1`, and a second depth sequence `[5, 7]` of the same length. -/
theorem claim_c4_witness :
    (compute_3d_area [0] [0] [0, 10]).item 0 0 0 =
      (compute_3d_area [0] [0] [0, 10]).item 0 0 1 ∧
    (compute_3d_area [0] [0] [5, 7]).data = (compute_3d_area [0] [0] [0, 10]).data :=
  claim_c4_depth_invariance [0] [0] [0, 10] [5, 7] 0 0 0 1 (by simp) (by simp) (by simp)

/-- Claim C5: longitude-invariance — for every input and every pair of
in-range longitude indices `j1`, `j2`, the output at `(i, j1, d)` equals the
output at `(i, j2, d)`; moreover the numeric data depends on the `lon`
argument only through its length. -/
theorem claim_c5_longitude_invariance (lat lon lon2 depth : List ℝ) (i j1 j2 d : ℕ)
    (hj1 : j1 < lon.length) (hj2 : j2 < lon.length)
    (hlen : lon2.length = lon.length) :
    (compute_3d_area lat lon depth).item i j1 d =
      (compute_3d_area lat lon depth).item i j2 d ∧
    (compute_3d_area lat lon2 depth).data = (compute_3d_area lat lon depth).data := by
  constructor
  · by_cases hi : i < lat.length
    · by_cases hd : d < depth.length
      · rw [compute_3d_area_item_eq lat lon depth hi hj1 hd,
          compute_3d_area_item_eq lat lon depth hi hj2 hd]
      · simp only [DataArray3.item]
        rw [compute_3d_area_row lat lon depth hi, getD_replicate_of_lt hj1,
          getD_replicate_of_lt hj2]
    · simp only [DataArray3.item]
      rw [compute_3d_area_row_out lat lon depth (by omega)]
      simp
  · rw [compute_3d_area_data_eq, compute_3d_area_data_eq, hlen]

/-- Witness for C5 at `lat = depth = [0.0]`, `lon = [0, 1]`, longitude indices
`0` and `1`, and a second longitude sequence `[3, 4]` of the same length. -/
theorem claim_c5_witness :
    (compute_3d_area [0] [0, 1] [0]).item 0 0 0 =
      (compute_3d_area [0] [0, 1] [0]).item 0 1 0 ∧
    (compute_3d_area [0] [3, 4] [0]).data = (compute_3d_area [0] [0, 1] [0]).data :=
  claim_c5_longitude_invariance [0] [0, 1] [3, 4] [0] 0 0 1 0 (by simp) (by simp) (by simp)

/-- Claim C6: for an ascending latitude sequence with uniform 0.5-degree
spacing, the sum over all latitude rows of the per-row area telescopes to
`R^2 * (0.25*pi/180) * (sin((lat[last]+0.25)*pi/180) - sin((lat[0]-0.25)*pi/180))`. -/
theorem claim_c6_telescoping (lat : List ℝ) (hne : lat ≠ [])
    (hu : List.Chain' (fun a b => b = a + 0.5) lat) :
    (area_row lat).sum =
      (6371000 : ℝ) ^ 2 * (0.25 * Real.pi / 180) *
        (Real.sin ((lat.getLastD 0 + 0.25) * (Real.pi / 180)) -
         Real.sin ((lat.getD 0 0 - 0.25) * (Real.pi / 180))) := by
  have hlen : 0 < lat.length := List.length_pos.mpr hne
  rw [list_sum_getD, area_row_length]
  have hcong : ∀ k ∈ Finset.range lat.length,
      (area_row lat).getD k 0 =
        R ^ 2 * delta_lambda *
          (Real.sin ((lat_edges lat).getD (k + 1) 0 * deg_to_rad) -
           Real.sin ((lat_edges lat).getD k 0 * deg_to_rad)) := by
    intro k hk
    exact area_row_getD lat (Finset.mem_range.mp hk)
  rw [Finset.sum_congr rfl hcong, ← Finset.mul_sum,
    Finset.sum_range_sub (fun k => Real.sin ((lat_edges lat).getD k 0 * deg_to_rad)),
    lat_edges_getD_last, lat_edges_getD_lt lat hlen]
  unfold R delta_lambda deg_to_rad
  ring

/-- Witness for C6 at `lat = [0.0]`. -/
theorem claim_c6_witness :
    (area_row [0]).sum =
      (6371000 : ℝ) ^ 2 * (0.25 * Real.pi / 180) *
        (Real.sin ((([0] : List ℝ).getLastD 0 + 0.25) * (Real.pi / 180)) -
         Real.sin ((([0] : List ℝ).getD 0 0 - 0.25) * (Real.pi / 180))) :=
  claim_c6_telescoping [0] (by simp) (List.chain'_singleton 0)

/-- Claim C8: determinism — two calls of `compute_3d_area` on identical inputs
yield identical outputs; in this model the function is a pure function of its
three arguments, with no hidden state. -/
theorem claim_c8_determinism (lat1 lon1 depth1 lat2 lon2 depth2 : List ℝ)
    (h1 : lat1 = lat2) (h2 : lon1 = lon2) (h3 : depth1 = depth2) :
    compute_3d_area lat1 lon1 depth1 = compute_3d_area lat2 lon2 depth2 := by
  rw [h1, h2, h3]

/-- Witness for C8 at `lat = lon = depth = [0.0]`. -/
theorem claim_c8_witness :
    compute_3d_area [0] [0] [0] = compute_3d_area [0] [0] [0] :=
  claim_c8_determinism [0] [0] [0] [0] [0] [0] rfl rfl rfl

/-- Counterexample to C9 as stated: the intermediate 2-d field's description
attribute is the ASCII string "Area of each 1x1 degree grid cell" (letter x),
not the claimed verbatim string "Area of each 1×1 degree grid cell"
(multiplication sign ×). -/
theorem claim_c9_counterexample :
    (area_2d_da [0] [0]).attrs.lookup ("description") ≠
      some ("Area of each 1×1 degree grid cell") := by
  decide

/-- Claim C9 as amended: the returned array carries name "3D_area", unit
"m^2", description "3D area of grid cells over depth", and a depth coordinate
with unit "m"; the intermediate 2-d field carries unit "m^2" and the verbatim
description "Area of each 1x1 degree grid cell" (with an ASCII letter x, not
the typographic ×). -/
theorem claim_c9_amended_metadata (lat lon depth : List ℝ) :
    (compute_3d_area lat lon depth).name = "3D_area" ∧
    (compute_3d_area lat lon depth).attrs =
      [("units", "m^2"), ("description", "3D area of grid cells over depth")] ∧
    (compute_3d_area lat lon depth).depth_attrs =
      [("units", "m"), ("description", "Depth levels")] ∧
    (area_2d_da lat lon).attrs =
      [("units", "m^2"), ("description", "Area of each 1x1 degree grid cell")] :=
  ⟨rfl, rfl, rfl, rfl⟩

/-- Counterexample to C10 as stated: called with a bare NumPy array for
`depth` (which does expose a `.data` attribute), the function does not fail
with an attribute error — it returns the area field. -/
theorem claim_c10_counterexample :
    compute_3d_area_py [0] [0] (PySeq.npArray [0]) =
      Except.ok (compute_3d_area [0] [0] [0]) := by
  rfl

/-- Claim C10 as amended: when `depth` is a plain Python list (which has no
`.data` attribute) and `lat` is non-empty, `compute_3d_area` fails with an
`AttributeError` at the `depth.data` access; a bare NumPy array does expose
`.data`, so with it the call succeeds and returns the area field. -/
theorem claim_c10_amended (lat lon xs : List ℝ) (hne : lat ≠ []) :
    compute_3d_area_py lat lon (PySeq.pyList xs) = Except.error ("AttributeError") ∧
    compute_3d_area_py lat lon (PySeq.npArray xs) =
      Except.ok (compute_3d_area lat lon xs) := by
  have h : lat.isEmpty = false := List.isEmpty_eq_false.mpr hne
  constructor
  · simp [compute_3d_area_py, h, PySeq.dataAttr]
  · simp only [compute_3d_area_py, h, PySeq.dataAttr, PySeq.toList, Bool.false_eq_true,
      if_false]
    rfl

/-- Witness for the amended C10 at `lat = lon = [0.0]`, `xs = [0.0]`. -/
theorem claim_c10_amended_witness :
    compute_3d_area_py [0] [0] (PySeq.pyList [0]) = Except.error ("AttributeError") ∧
    compute_3d_area_py [0] [0] (PySeq.npArray [0]) =
      Except.ok (compute_3d_area [0] [0] [0]) :=
  claim_c10_amended [0] [0] [0] (by simp)
